import Mathlib

/-!
Shallow embedding of the authentication service of the repository
(src/src/services/auth.ts) together with the consumer-facing session
context (the AuthProvider component).

Modelling conventions:
* Timestamps (ISO-8601 strings produced by `new Date().toISOString()`)
  are modelled as natural numbers; the string order on ISO dates agrees
  with chronological order, so a monotone clock hypothesis becomes a
  Nat inequality.  The two textually separate `new Date()` calls that a
  single operation performs are modelled as one call-time value `now`.
* A thrown JavaScript `Error` is a record with an optional provider
  `code` string and an optional `message` string (a plain
  `new Error(m)` has no `code`).
* JavaScript string truthiness (the `a || b` fallback chains of the
  source, under which both `null`/`undefined` and the empty string are
  falsy) is modelled by the helpers `strOr` / `strOrD`.
* The Firestore document store is a function from document id to an
  optional stored record whose fields are all optional (documents
  written by different code paths carry different field subsets).  A
  merge write updates only the fields it mentions.  A read is modelled
  with an explicit failure input (`readErr`): the embedded functions
  take the call-time outcome of the external collaborators as explicit
  parameters, which is the standard shallow embedding of `await` on an
  opaque asynchronous capability.
-/

namespace LatestML

/-- JavaScript `a || b` on an optional string: the empty string and
`undefined`/`null` are falsy. -/
def strOr (a b : Option String) : Option String :=
  match a with
  | some s => if s = "" then b else some s
  | none => b

/-- JavaScript `a || d` producing a plain string default. -/
def strOrD (a : Option String) (d : String) : String :=
  match a with
  | some s => if s = "" then d else s
  | none => d

/-- JavaScript `a || d` on an optional timestamp (an ISO string is
never empty, hence never falsy when present). -/
def natOr (a : Option Nat) (d : Nat) : Nat := a.getD d

/-- Template-literal rendering of a possibly-undefined string
(JavaScript stringifies `undefined`). -/
def templateStr (a : Option String) : String :=
  match a with
  | some s => s
  | none => "undefined"

/-- The provider identity assertion (`FirebaseUser`): subject id plus
optional e-mail, display name and photo reference. -/
structure FirebaseUser where
  uid : String
  email : Option String
  displayName : Option String
  photoURL : Option String
  deriving DecidableEq, Repr

/-- The application profile record (`User` in src/types). -/
structure UserProfile where
  uid : String
  email : String
  displayName : String
  role : String
  photoURL : Option String
  createdAt : Nat
  lastLogin : Nat
  emailVerified : Bool
  deriving DecidableEq, Repr

/-- A stored Firestore document in the `users` collection.  Every field
is optional: the documents observed by `userData?.field` fallbacks may
miss any field. -/
structure StoredDoc where
  email : Option String
  displayName : Option String
  role : Option String
  photoURL : Option String
  createdAt : Option Nat
  lastLogin : Option Nat
  emailVerified : Option Bool
  deriving DecidableEq, Repr

/-- The document with no fields set. -/
def emptyDoc : StoredDoc :=
  { email := none, displayName := none, role := none, photoURL := none
    createdAt := none, lastLogin := none, emailVerified := none }

/-- The `users` collection, keyed by subject id. -/
abbrev Store := String → Option StoredDoc

/-- Full (non-merge) `setDoc` of a complete profile record, as done on
the new-user paths. -/
def toDoc (u : UserProfile) : StoredDoc :=
  { email := some u.email, displayName := some u.displayName
    role := some u.role, photoURL := u.photoURL
    createdAt := some u.createdAt, lastLogin := some u.lastLogin
    emailVerified := some u.emailVerified }

/-- Write a whole document at a key. -/
def setFullDoc (s : Store) (uid : String) (d : StoredDoc) : Store :=
  fun k => if k = uid then some d else s k

/-- A thrown JavaScript error value: optional provider code, optional
message. -/
structure JSError where
  code : Option String
  message : Option String
  deriving DecidableEq, Repr

/-- `new Error(m)`: a plain error with no provider code. -/
def mkError (m : String) : JSError := ⟨none, some m⟩

/-- Result of an operation that either returns a value or throws. -/
inductive Outcome (α : Type) where
  | ok (a : α)
  | thrown (e : JSError)
  deriving DecidableEq, Repr

/-- The provider codes given a dedicated case by the classifier switch
(auth.ts lines 66-93). -/
def knownGoogleCodes : List String :=
  ["auth/cancelled-popup-request", "auth/popup-closed-by-user",
   "auth/popup-blocked", "auth/network-request-failed",
   "auth/operation-not-allowed", "auth/unauthorized-domain",
   "auth/account-exists-with-different-credential",
   "auth/invalid-api-key", "auth/invalid-oauth-client-id",
   "auth/user-disabled", "auth/user-not-found",
   "auth/wrong-password", "auth/invalid-email"]

/-- `handleGoogleSignInError` (auth.ts lines 56-101): classifies a
raw failure into the error it throws.  The `AuthErrorType` enum values
are the literal strings thrown.  When the input has no string `code`
the final line throws a generic error built from the message with an
"Unknown error occurred" fallback; the in-switch default uses the bare
template `error.message` (no fallback). -/
def handleGoogleSignInError (e : JSError) : JSError :=
  match e.code with
  | some c =>
    if c = "auth/cancelled-popup-request" ∨ c = "auth/popup-closed-by-user" then
      mkError "SIGN_IN_CANCELLED"
    else if c = "auth/popup-blocked" then
      mkError "POPUP_BLOCKED"
    else if c = "auth/network-request-failed" then
      mkError "NETWORK_ERROR"
    else if c = "auth/operation-not-allowed" then
      mkError "OPERATION_NOT_ALLOWED"
    else if c = "auth/unauthorized-domain" then
      mkError "UNAUTHORIZED_DOMAIN"
    else if c = "auth/account-exists-with-different-credential" then
      mkError "ACCOUNT_EXISTS"
    else if c = "auth/invalid-api-key" ∨ c = "auth/invalid-oauth-client-id" then
      mkError "CONFIGURATION_ERROR"
    else if c = "auth/user-disabled" ∨ c = "auth/user-not-found" ∨
            c = "auth/wrong-password" ∨ c = "auth/invalid-email" then
      mkError "INVALID_CREDENTIALS"
    else
      mkError ("GENERIC_ERROR: " ++ templateStr e.message)
  | none =>
      mkError ("GENERIC_ERROR: " ++ strOrD e.message "Unknown error occurred")

/-- The classifier as used at its call sites (`handleGoogleSignInError`
has TypeScript return type `never`): invoking it always ends the
enclosing operation by throwing, never by returning a profile. -/
def classifyOutcome (e : JSError) : Outcome UserProfile :=
  .thrown (handleGoogleSignInError e)

/-- `convertFirebaseUser` (auth.ts lines 32-53).  `readErr` is the
call-time outcome of the `getDoc` store read: when the read throws,
the catch block logs and returns `null`; when it succeeds,
`userDoc.data()` is the optional stored record and the profile is
assembled with the fallback chains of lines 40-47.  Note that
`photoURL` is `firebaseUser.photoURL || undefined` with no stored
fallback, and `role`/`createdAt` default even when no document
exists. -/
def convertFirebaseUser (store : Store) (readErr : Option JSError)
    (now : Nat) (fb : FirebaseUser) : Option UserProfile :=
  match readErr with
  | some _ => none
  | none =>
    let userData := store fb.uid
    some
      { uid := fb.uid
        email := strOrD fb.email ""
        displayName := strOrD (strOr fb.displayName (userData.bind (·.displayName))) ""
        role := strOrD (userData.bind (·.role)) "student"
        photoURL := strOr fb.photoURL none
        createdAt := natOr (userData.bind (·.createdAt)) now
        lastLogin := now
        emailVerified := true }

/-- Merge-write `{ lastLogin: now }` as done by `signIn`
(auth.ts lines 113-115).  A Firestore merge-set on a missing document
creates it with just the given field. -/
def mergeLastLogin (store : Store) (uid : String) (now : Nat) : Store :=
  fun k =>
    if k = uid then
      some (match store uid with
            | some old => { old with lastLogin := some now }
            | none => { emptyDoc with lastLogin := some now })
    else store k

/-- Call-time collaborator outcomes for one `signIn` invocation. -/
structure SignInEnv where
  authResult : Outcome FirebaseUser
  readErr : Option JSError
  now : Nat

/-- `signIn` (auth.ts lines 103-122): authenticate with the provider,
convert (store read), throw "Failed to get user data" when conversion
yields null, else merge-write `lastLogin` and return the profile.  The
outer catch rethrows `error.message || "Failed to sign in"`. -/
def signIn (env : SignInEnv) (store : Store) : Outcome UserProfile × Store :=
  match env.authResult with
  | .thrown e => (.thrown (mkError (strOrD e.message "Failed to sign in")), store)
  | .ok fb =>
    match convertFirebaseUser store env.readErr env.now fb with
    | none => (.thrown (mkError "Failed to get user data"), store)
    | some user =>
      (.ok user, mergeLastLogin store user.uid env.now)

/-- Merge-write of `{ lastLogin, photoURL, displayName }` performed on
the existing-user branch of the Google paths (auth.ts lines 191-195 and
247-251). -/
def applyLoginMerge (old : StoredDoc) (fb : FirebaseUser) (now : Nat) : StoredDoc :=
  { old with
    lastLogin := some now
    photoURL := strOr fb.photoURL old.photoURL
    displayName := strOr fb.displayName old.displayName }

/-- The profile literal built on the new-user branch of the Google
paths (auth.ts lines 165-174 and 224-233): default role "student",
fresh timestamps, fields copied from the assertion. -/
def newGoogleProfile (fb : FirebaseUser) (now : Nat) : UserProfile :=
  { uid := fb.uid
    email := strOrD fb.email ""
    displayName := strOrD fb.displayName ""
    role := "student"
    photoURL := strOr fb.photoURL none
    createdAt := now
    lastLogin := now
    emailVerified := true }

/-- The profile literal built on the existing-user branch of the Google
paths (auth.ts lines 180-189 and 237-246): role and createdAt fall back
to the stored values, displayName and photoURL fall back to stored when
the assertion omits them, lastLogin is fresh. -/
def mergedGoogleProfile (fb : FirebaseUser) (existingData : StoredDoc)
    (now : Nat) : UserProfile :=
  { uid := fb.uid
    email := strOrD fb.email ""
    displayName := strOrD (strOr fb.displayName existingData.displayName) ""
    role := strOrD existingData.role "student"
    photoURL := strOr fb.photoURL (strOr existingData.photoURL none)
    createdAt := natOr existingData.createdAt now
    lastLogin := now
    emailVerified := true }

/-- The shared Google-user reconciliation body: auth.ts lines 160-196
(inside `signInWithGoogle`) and lines 220-252 (inside
`checkRedirectResult`) are textually identical; this is that common
read-branch-write block.  `readErr` is the call-time outcome of the
`getDoc` read; a throw there propagates to the enclosing catch. -/
def reconcileGoogleUser (store : Store) (readErr : Option JSError)
    (now : Nat) (fb : FirebaseUser) : Outcome UserProfile × Store :=
  match readErr with
  | some e => (.thrown e, store)
  | none =>
    match store fb.uid with
    | none =>
      let userData := newGoogleProfile fb now
      (.ok userData, setFullDoc store fb.uid (toDoc userData))
    | some existingData =>
      let userData := mergedGoogleProfile fb existingData now
      (.ok userData,
       setFullDoc store fb.uid (applyLoginMerge existingData fb now))

/-- Call-time collaborator outcomes for one `signInWithGoogle`
invocation: the popup result, whether `signInWithRedirect` itself
throws before navigating, the store read outcome, and the clock. -/
structure GoogleEnv where
  popupResult : Outcome FirebaseUser
  redirectThrow : Option JSError
  readErr : Option JSError
  now : Nat

/-- The try block of `signInWithGoogle` (auth.ts lines 125-198).  The
redirect branch awaits `signInWithRedirect` and then throws
`Error(AuthErrorType.REDIRECT_IN_PROGRESS)` from inside the try; the
popup branch reconciles on success.  No store write precedes any
throw. -/
def signInWithGoogleTry (env : GoogleEnv) (store : Store)
    (useRedirect : Bool) : Outcome UserProfile × Store :=
  if useRedirect then
    match env.redirectThrow with
    | some e => (.thrown e, store)
    | none => (.thrown (mkError "REDIRECT_IN_PROGRESS"), store)
  else
    match env.popupResult with
    | .thrown e => (.thrown e, store)
    | .ok fb => reconcileGoogleUser store env.readErr env.now fb

/-- `signInWithGoogle` (auth.ts lines 124-203): the catch block passes
every thrown value — including the REDIRECT_IN_PROGRESS signal thrown
by its own try block — through `handleGoogleSignInError`. -/
def signInWithGoogle (env : GoogleEnv) (store : Store)
    (useRedirect : Bool) : Outcome UserProfile × Store :=
  match signInWithGoogleTry env store useRedirect with
  | (.ok u, s) => (.ok u, s)
  | (.thrown e, s) => (.thrown (handleGoogleSignInError e), s)

/-- Call-time collaborator outcomes for one `checkRedirectResult`
invocation: `getRedirectResult` yields a pending user, no result, or a
throw. -/
structure RedirectEnv where
  result : Outcome (Option FirebaseUser)
  readErr : Option JSError
  now : Nat

/-- `checkRedirectResult` (auth.ts lines 206-261): no pending result
returns null (not an error); a pending user runs the same reconcile
block as the popup path; any throw is classified. -/
def checkRedirectResult (env : RedirectEnv) (store : Store) :
    Outcome (Option UserProfile) × Store :=
  match env.result with
  | .thrown e => (.thrown (handleGoogleSignInError e), store)
  | .ok none => (.ok none, store)
  | .ok (some fb) =>
    match reconcileGoogleUser store env.readErr env.now fb with
    | (.ok u, s) => (.ok (some u), s)
    | (.thrown e, s) => (.thrown (handleGoogleSignInError e), s)

/-- The provider-side session: the currently signed-in user, mutated by
account creation, sign-in and sign-out. -/
structure ProviderState where
  currentUser : Option FirebaseUser
  deriving DecidableEq, Repr

/-- Call-time collaborator outcomes for one `signUp` invocation. -/
structure SignUpEnv where
  createResult : Outcome FirebaseUser
  now : Nat

/-- `signUp` (auth.ts lines 263-296): create the provider account
(which signs the new user in), set the provider display name, write the
full profile document (this literal carries no photoURL field), then
`firebaseSignOut` immediately, and return the created profile. -/
def signUp (env : SignUpEnv) (store : Store) (pstate : ProviderState)
    (displayName : String) (role : String) :
    Outcome UserProfile × Store × ProviderState :=
  match env.createResult with
  | .thrown e =>
      (.thrown (mkError (strOrD e.message "Failed to create account")), store, pstate)
  | .ok fb =>
    let userData : UserProfile :=
      { uid := fb.uid
        email := strOrD fb.email ""
        displayName := displayName
        role := role
        photoURL := none
        createdAt := env.now
        lastLogin := env.now
        emailVerified := true }
    (.ok userData, setFullDoc store fb.uid (toDoc userData), ⟨none⟩)

/-- `getCurrentUser` (auth.ts lines 307-319): one-shot read of the
current provider session; an authenticated session is converted via
`convertFirebaseUser`, an absent one resolves null. -/
def getCurrentUser (store : Store) (readErr : Option JSError) (now : Nat)
    (pstate : ProviderState) : Option UserProfile :=
  match pstate.currentUser with
  | none => none
  | some fb => convertFirebaseUser store readErr now fb

/-- The value delivered to an `onAuthStateChange` subscriber for one
provider-reported event (auth.ts lines 321-330): an authenticated user
is converted via `convertFirebaseUser`, a null session delivers
null. -/
def authStateCallbackValue (store : Store) (readErr : Option JSError)
    (now : Nat) (fbUser : Option FirebaseUser) : Option UserProfile :=
  match fbUser with
  | some fb => convertFirebaseUser store readErr now fb
  | none => none

/-- The session context state owned by the AuthProvider component:
`user` and `loading`. -/
structure CtxState where
  user : Option UserProfile
  loading : Bool
  deriving DecidableEq, Repr

/-- The context `signInWithGoogle` wrapper (AuthProvider lines 71-100):
set loading, attempt the popup service call; on a failure whose message
is exactly "POPUP_BLOCKED", retry once with redirect, returning without
clearing loading unless the retry failure message differs from
"REDIRECT_IN_PROGRESS", in which case loading is cleared and a generic
"Google sign-in failed" error is thrown; any non-popup-blocked popup
failure clears loading and is rethrown.  The first component is the
error the wrapper throws to its caller (none when it resolves). -/
def ctxSignInWithGoogle (envPopup envRedirect : GoogleEnv)
    (store : Store) (st : CtxState) : Option JSError × CtxState × Store :=
  let st1 : CtxState := { st with loading := true }
  match signInWithGoogle envPopup store false with
  | (.ok u, s1) => (none, { user := some u, loading := false }, s1)
  | (.thrown e, s1) =>
    if e.message = some "POPUP_BLOCKED" then
      match signInWithGoogle envRedirect s1 true with
      | (.ok _, s2) => (none, st1, s2)
      | (.thrown re, s2) =>
        if re.message ≠ some "REDIRECT_IN_PROGRESS" then
          (some (mkError "Google sign-in failed. Please try again or use email/password."),
           { st1 with loading := false }, s2)
        else
          (none, st1, s2)
    else
      (some e, { st1 with loading := false }, s1)

/-- The context `signUp` wrapper (AuthProvider lines 102-113): set
loading, call the service `signUp`, adopt the returned profile as the
current user on success, clear loading in the finally block either
way; a service failure is rethrown. -/
def ctxSignUp (env : SignUpEnv) (store : Store) (pstate : ProviderState)
    (displayName : String) (role : String) (st : CtxState) :
    Option JSError × CtxState × Store × ProviderState :=
  match signUp env store pstate displayName role with
  | (.ok u, s1, p1) => (none, { user := some u, loading := false }, s1, p1)
  | (.thrown e, s1, p1) => (some e, { st with loading := false }, s1, p1)

/-- The subscription listener installed by the AuthProvider
(lines 42-45): every delivered value becomes the current user and
loading is cleared. -/
def ctxAuthCallback (delivered : Option UserProfile) : CtxState :=
  { user := delivered, loading := false }

/-! ## Helper lemmas -/

theorem reconcileGoogleUser_missing (store : Store) (fb : FirebaseUser)
    (now : Nat) (h : store fb.uid = none) :
    reconcileGoogleUser store none now fb =
      (.ok (newGoogleProfile fb now),
       setFullDoc store fb.uid (toDoc (newGoogleProfile fb now))) := by
  unfold reconcileGoogleUser
  rw [h]

theorem reconcileGoogleUser_existing (store : Store) (fb : FirebaseUser)
    (ex : StoredDoc) (now : Nat) (h : store fb.uid = some ex) :
    reconcileGoogleUser store none now fb =
      (.ok (mergedGoogleProfile fb ex now),
       setFullDoc store fb.uid (applyLoginMerge ex fb now)) := by
  unfold reconcileGoogleUser
  rw [h]

theorem setFullDoc_same (s : Store) (uid : String) (d : StoredDoc) :
    setFullDoc s uid d uid = some d := by
  simp [setFullDoc]

theorem setFullDoc_other (s : Store) (uid : String) (d : StoredDoc)
    (k : String) (hk : k ≠ uid) : setFullDoc s uid d k = s k := by
  simp [setFullDoc, hk]

theorem signInWithGoogle_popup_ok (env : GoogleEnv) (store : Store)
    (fb : FirebaseUser) (h1 : env.popupResult = .ok fb)
    (h2 : env.readErr = none) :
    signInWithGoogle env store false = reconcileGoogleUser store none env.now fb := by
  obtain ⟨pr, rt, re, n⟩ := env
  cases h1
  cases h2
  show (match reconcileGoogleUser store none n fb with
        | (.ok u, s) => (Outcome.ok u, s)
        | (.thrown e, s) => (.thrown (handleGoogleSignInError e), s)) = _
  cases hdoc : store fb.uid with
  | none => rw [reconcileGoogleUser_missing store fb n hdoc]
  | some ex => rw [reconcileGoogleUser_existing store fb ex n hdoc]

theorem checkRedirectResult_pending_ok (env : RedirectEnv) (store : Store)
    (fb : FirebaseUser) (h1 : env.result = .ok (some fb))
    (h2 : env.readErr = none) :
    ∀ u s, reconcileGoogleUser store none env.now fb = (.ok u, s) →
      checkRedirectResult env store = (.ok (some u), s) := by
  obtain ⟨res, re, n⟩ := env
  cases h1
  cases h2
  intro u s hr
  show (match reconcileGoogleUser store none n fb with
        | (.ok u, s) => (Outcome.ok (some u), s)
        | (.thrown e, s) => (.thrown (handleGoogleSignInError e), s)) = _
  rw [hr]

/-! ## Claim theorems -/

/-- C1: the claim states that a Redirect-strategy invocation of
signInWithGoogle signals RedirectInProgress unreclassified.  On the
code, the redirect branch throws the REDIRECT_IN_PROGRESS signal from
inside its own try block; the catch-all routes it through
handleGoogleSignInError, which sees an Error without a provider code
and rethrows it as the generic error "GENERIC_ERROR:
REDIRECT_IN_PROGRESS".  This theorem evaluates the operation at the
failing input (redirect initiation succeeds): the signal reaches the
caller reclassified as a generic error, and no profile is returned. -/
theorem signInWithGoogle_redirect_reclassifies_signal :
    (signInWithGoogle
        ⟨Outcome.ok ⟨"u1", some "a@x.com", some "Ann", none⟩, none, none, 5⟩
        (fun _ => none) true).1
      = Outcome.thrown (mkError "GENERIC_ERROR: REDIRECT_IN_PROGRESS")
    ∧ (signInWithGoogle
        ⟨Outcome.ok ⟨"u1", some "a@x.com", some "Ann", none⟩, none, none, 5⟩
        (fun _ => none) true).1
      ≠ Outcome.thrown (mkError "REDIRECT_IN_PROGRESS") := by
  exact ⟨rfl, by decide⟩

/-- C2: the claim (and the AuthProvider comments) promise that after a
PopupBlocked popup failure the redirect retry that initiates a redirect
resolves as suspended, loading staying true.  On the code, the retry
throws "GENERIC_ERROR: REDIRECT_IN_PROGRESS" (see the C1 theorem), so
the guard message check fails, loading is cleared, and a generic
"Google sign-in failed" error is thrown to the caller.  This theorem
evaluates the context wrapper at the failing input: popup raises
provider code auth/popup-blocked, redirect initiation succeeds. -/
theorem ctx_popup_blocked_redirect_throws_generic :
    (ctxSignInWithGoogle
        ⟨Outcome.thrown ⟨some "auth/popup-blocked", some "popup blocked"⟩, none, none, 5⟩
        ⟨Outcome.ok ⟨"u1", some "a@x.com", some "Ann", none⟩, none, none, 5⟩
        (fun _ => none) ⟨none, false⟩).1
      = some (mkError "Google sign-in failed. Please try again or use email/password.")
    ∧ (ctxSignInWithGoogle
        ⟨Outcome.thrown ⟨some "auth/popup-blocked", some "popup blocked"⟩, none, none, 5⟩
        ⟨Outcome.ok ⟨"u1", some "a@x.com", some "Ann", none⟩, none, none, 5⟩
        (fun _ => none) ⟨none, false⟩).2.1
      = ⟨none, false⟩ := by
  exact ⟨rfl, rfl⟩

/-- C5: the error classifier is a total deterministic function of the
raw failure: each known provider code maps to its enumerated kind, any
unrecognized code maps to a generic error carrying the original
message, an input without a string code maps to a generic error with
an "Unknown error occurred" fallback, and the classifier never
produces a success value. -/
theorem classifier_total_table (m : Option String) (c mm : String)
    (hc : c ∉ knownGoogleCodes) :
    handleGoogleSignInError ⟨some "auth/cancelled-popup-request", m⟩ = mkError "SIGN_IN_CANCELLED"
    ∧ handleGoogleSignInError ⟨some "auth/popup-closed-by-user", m⟩ = mkError "SIGN_IN_CANCELLED"
    ∧ handleGoogleSignInError ⟨some "auth/popup-blocked", m⟩ = mkError "POPUP_BLOCKED"
    ∧ handleGoogleSignInError ⟨some "auth/network-request-failed", m⟩ = mkError "NETWORK_ERROR"
    ∧ handleGoogleSignInError ⟨some "auth/operation-not-allowed", m⟩ = mkError "OPERATION_NOT_ALLOWED"
    ∧ handleGoogleSignInError ⟨some "auth/unauthorized-domain", m⟩ = mkError "UNAUTHORIZED_DOMAIN"
    ∧ handleGoogleSignInError ⟨some "auth/account-exists-with-different-credential", m⟩ = mkError "ACCOUNT_EXISTS"
    ∧ handleGoogleSignInError ⟨some "auth/invalid-api-key", m⟩ = mkError "CONFIGURATION_ERROR"
    ∧ handleGoogleSignInError ⟨some "auth/invalid-oauth-client-id", m⟩ = mkError "CONFIGURATION_ERROR"
    ∧ handleGoogleSignInError ⟨some "auth/user-disabled", m⟩ = mkError "INVALID_CREDENTIALS"
    ∧ handleGoogleSignInError ⟨some "auth/user-not-found", m⟩ = mkError "INVALID_CREDENTIALS"
    ∧ handleGoogleSignInError ⟨some "auth/wrong-password", m⟩ = mkError "INVALID_CREDENTIALS"
    ∧ handleGoogleSignInError ⟨some "auth/invalid-email", m⟩ = mkError "INVALID_CREDENTIALS"
    ∧ handleGoogleSignInError ⟨some c, some mm⟩ = mkError ("GENERIC_ERROR: " ++ mm)
    ∧ handleGoogleSignInError ⟨none, none⟩ = mkError "GENERIC_ERROR: Unknown error occurred"
    ∧ (∀ e1 e2 : JSError, e1 = e2 → handleGoogleSignInError e1 = handleGoogleSignInError e2)
    ∧ (∀ (e : JSError) (u : UserProfile), classifyOutcome e ≠ Outcome.ok u) := by
  simp only [knownGoogleCodes, List.mem_cons, List.not_mem_nil, or_false, not_or] at hc
  obtain ⟨n1, n2, n3, n4, n5, n6, n7, n8, n9, n10, n11, n12, n13⟩ := hc
  refine ⟨rfl, rfl, rfl, rfl, rfl, rfl, rfl, rfl, rfl, rfl, rfl, rfl, rfl, ?_, rfl,
    fun e1 e2 h => by rw [h], fun e u h => by cases h⟩
  simp [handleGoogleSignInError, templateStr, n1, n2, n3, n4, n5, n6, n7, n8,
    n9, n10, n11, n12, n13]

/-- Witness for the C5 theorem at a concrete unknown code. -/
theorem classifier_total_table_witness :
    handleGoogleSignInError ⟨some "auth/some-new-code", some "boom"⟩
      = mkError "GENERIC_ERROR: boom" :=
  (classifier_total_table (some "ignored") "auth/some-new-code" "boom"
    (by decide)).2.2.2.2.2.2.2.2.2.2.2.2.2.1

/-- C3: for an assertion whose subject id has no stored profile, the
Google sign-in path creates exactly one profile document with the
default role "student", emailVerified true and createdAt equal to
lastLogin, leaving every other key untouched; re-running
reconciliation with the same assertion (here via the pending-redirect
path) changes neither the returned nor the stored createdAt and
role. -/
theorem google_reconcile_creates_profile_once
    (store : Store) (fb : FirebaseUser) (now1 now2 : Nat)
    (h : store fb.uid = none) :
    ∃ (u1 u2 : UserProfile) (s1 : Store),
      signInWithGoogle ⟨Outcome.ok fb, none, none, now1⟩ store false = (Outcome.ok u1, s1)
      ∧ u1.role = "student" ∧ u1.emailVerified = true ∧ u1.createdAt = u1.lastLogin
      ∧ s1 fb.uid = some (toDoc u1)
      ∧ (∀ k, k ≠ fb.uid → s1 k = store k)
      ∧ (checkRedirectResult ⟨Outcome.ok (some fb), none, now2⟩ s1).1 = Outcome.ok (some u2)
      ∧ u2.createdAt = u1.createdAt ∧ u2.role = u1.role
      ∧ (∃ d2, (checkRedirectResult ⟨Outcome.ok (some fb), none, now2⟩ s1).2 fb.uid = some d2
          ∧ d2.createdAt = some u1.createdAt ∧ d2.role = some u1.role) := by
  have e1 : signInWithGoogle ⟨Outcome.ok fb, none, none, now1⟩ store false
      = reconcileGoogleUser store none now1 fb :=
    signInWithGoogle_popup_ok _ store fb rfl rfl
  rw [reconcileGoogleUser_missing store fb now1 h] at e1
  have e2 : reconcileGoogleUser
      (setFullDoc store fb.uid (toDoc (newGoogleProfile fb now1))) none now2 fb
      = (.ok (mergedGoogleProfile fb (toDoc (newGoogleProfile fb now1)) now2),
         setFullDoc (setFullDoc store fb.uid (toDoc (newGoogleProfile fb now1))) fb.uid
           (applyLoginMerge (toDoc (newGoogleProfile fb now1)) fb now2)) :=
    reconcileGoogleUser_existing _ fb _ now2 (setFullDoc_same _ _ _)
  have e3 : checkRedirectResult ⟨Outcome.ok (some fb), none, now2⟩
        (setFullDoc store fb.uid (toDoc (newGoogleProfile fb now1)))
      = (Outcome.ok (some (mergedGoogleProfile fb (toDoc (newGoogleProfile fb now1)) now2)),
         setFullDoc (setFullDoc store fb.uid (toDoc (newGoogleProfile fb now1))) fb.uid
           (applyLoginMerge (toDoc (newGoogleProfile fb now1)) fb now2)) :=
    checkRedirectResult_pending_ok _ _ fb rfl rfl _ _ e2
  refine ⟨newGoogleProfile fb now1,
    mergedGoogleProfile fb (toDoc (newGoogleProfile fb now1)) now2,
    setFullDoc store fb.uid (toDoc (newGoogleProfile fb now1)),
    e1, rfl, rfl, rfl, setFullDoc_same _ _ _,
    fun k hk => setFullDoc_other _ _ _ k hk,
    by rw [e3], rfl, rfl,
    ⟨applyLoginMerge (toDoc (newGoogleProfile fb now1)) fb now2,
      by rw [e3]; exact setFullDoc_same _ _ _, rfl, rfl⟩⟩

/-- Witness for the C3 theorem: a fresh subject "u1" against the empty
store, first sign-in at time 10, re-reconciliation at time 20. -/
theorem google_reconcile_creates_profile_once_witness :
    ∃ (u1 u2 : UserProfile) (s1 : Store),
      signInWithGoogle
        ⟨Outcome.ok ⟨"u1", some "a@x.com", some "Ann", none⟩, none, none, 10⟩
        (fun _ => none) false = (Outcome.ok u1, s1)
      ∧ u1.role = "student" ∧ u1.emailVerified = true ∧ u1.createdAt = u1.lastLogin
      ∧ s1 "u1" = some (toDoc u1)
      ∧ (∀ k, k ≠ "u1" → s1 k = none)
      ∧ (checkRedirectResult
          ⟨Outcome.ok (some ⟨"u1", some "a@x.com", some "Ann", none⟩), none, 20⟩ s1).1
          = Outcome.ok (some u2)
      ∧ u2.createdAt = u1.createdAt ∧ u2.role = u1.role
      ∧ (∃ d2, (checkRedirectResult
            ⟨Outcome.ok (some ⟨"u1", some "a@x.com", some "Ann", none⟩), none, 20⟩ s1).2 "u1"
            = some d2
          ∧ d2.createdAt = some u1.createdAt ∧ d2.role = some u1.role) :=
  google_reconcile_creates_profile_once (fun _ => none)
    ⟨"u1", some "a@x.com", some "Ann", none⟩ 10 20 rfl

/-- C4: for an assertion whose subject already has a stored profile,
the merge-write of the shared Google reconciliation touches only
lastLogin, photoURL and displayName: the stored role, createdAt, email
(and emailVerified) are unchanged, every other key is untouched,
lastLogin becomes the call time, and under a monotone clock the new
lastLogin is at least the previous one. -/
theorem google_reconcile_existing_frame
    (store : Store) (fb : FirebaseUser) (ex : StoredDoc) (now : Nat)
    (h : store fb.uid = some ex)
    (hmono : ∀ t, ex.lastLogin = some t → t ≤ now) :
    ∃ d : StoredDoc,
      (reconcileGoogleUser store none now fb).1
        = Outcome.ok (mergedGoogleProfile fb ex now)
      ∧ (reconcileGoogleUser store none now fb).2 fb.uid = some d
      ∧ d.role = ex.role ∧ d.createdAt = ex.createdAt ∧ d.email = ex.email
      ∧ d.emailVerified = ex.emailVerified
      ∧ d.lastLogin = some now
      ∧ (∀ t t2, ex.lastLogin = some t → d.lastLogin = some t2 → t ≤ t2)
      ∧ (∀ k, k ≠ fb.uid → (reconcileGoogleUser store none now fb).2 k = store k) := by
  rw [reconcileGoogleUser_existing store fb ex now h]
  refine ⟨applyLoginMerge ex fb now, rfl, setFullDoc_same _ _ _,
    rfl, rfl, rfl, rfl, rfl, ?_, fun k hk => setFullDoc_other _ _ _ k hk⟩
  intro t t2 ht ht2
  have hl : (applyLoginMerge ex fb now).lastLogin = some now := rfl
  rw [hl] at ht2
  injection ht2 with hnow
  exact hnow ▸ hmono t ht

/-- Witness for the C4 theorem: subject "u1" with a stored admin
profile last seen at time 5, reconciled at time 9. -/
theorem google_reconcile_existing_frame_witness :
    ∃ d : StoredDoc,
      (reconcileGoogleUser
          (setFullDoc (fun _ => none) "u1"
            ⟨some "a@x.com", some "Old", some "admin", some "pic", some 3, some 5, some true⟩)
          none 9 ⟨"u1", some "a@x.com", none, none⟩).1
        = Outcome.ok (mergedGoogleProfile ⟨"u1", some "a@x.com", none, none⟩
            ⟨some "a@x.com", some "Old", some "admin", some "pic", some 3, some 5, some true⟩ 9)
      ∧ (reconcileGoogleUser
          (setFullDoc (fun _ => none) "u1"
            ⟨some "a@x.com", some "Old", some "admin", some "pic", some 3, some 5, some true⟩)
          none 9 ⟨"u1", some "a@x.com", none, none⟩).2 "u1" = some d
      ∧ d.role = some "admin" ∧ d.createdAt = some 3 ∧ d.email = some "a@x.com"
      ∧ d.emailVerified = some true
      ∧ d.lastLogin = some 9
      ∧ (∀ t t2, (some 5 : Option Nat) = some t → d.lastLogin = some t2 → t ≤ t2)
      ∧ (∀ k, k ≠ "u1" →
          (reconcileGoogleUser
            (setFullDoc (fun _ => none) "u1"
              ⟨some "a@x.com", some "Old", some "admin", some "pic", some 3, some 5, some true⟩)
            none 9 ⟨"u1", some "a@x.com", none, none⟩).2 k
          = setFullDoc (fun _ => none) "u1"
              ⟨some "a@x.com", some "Old", some "admin", some "pic", some 3, some 5, some true⟩ k) :=
  google_reconcile_existing_frame _ ⟨"u1", some "a@x.com", none, none⟩
    ⟨some "a@x.com", some "Old", some "admin", some "pic", some 3, some 5, some true⟩ 9
    (setFullDoc_same _ _ _)
    (by intro t ht; injection ht with h2; omega)

/-- C6: a successful signUp terminates the freshly created provider
session before resolving, so an immediate getCurrentUser call resolves
absent whatever the store replies, while signUp still returns the
created profile with the given role, emailVerified true, and createdAt
equal to lastLogin. -/
theorem signUp_leaves_no_session (env : SignUpEnv) (store : Store)
    (pstate : ProviderState) (dn rl : String) (fb : FirebaseUser)
    (h : env.createResult = Outcome.ok fb) :
    ∃ u : UserProfile,
      (signUp env store pstate dn rl).1 = Outcome.ok u
      ∧ u.role = rl ∧ u.emailVerified = true ∧ u.createdAt = u.lastLogin
      ∧ u.displayName = dn
      ∧ (signUp env store pstate dn rl).2.2 = ⟨none⟩
      ∧ (∀ (readErr : Option JSError) (now : Nat),
          getCurrentUser (signUp env store pstate dn rl).2.1 readErr now
            (signUp env store pstate dn rl).2.2 = none) := by
  obtain ⟨cr, n⟩ := env
  cases h
  exact ⟨_, rfl, rfl, rfl, rfl, rfl, rfl, fun _ _ => rfl⟩

/-- Witness for the C6 theorem: a concrete sign-up as admin at
time 11, probed with a concrete store read afterwards. -/
theorem signUp_leaves_no_session_witness :
    ∃ u : UserProfile,
      (signUp ⟨Outcome.ok ⟨"u9", some "b@x.com", none, none⟩, 11⟩ (fun _ => none)
          ⟨some ⟨"old", none, none, none⟩⟩ "Bea" "admin").1 = Outcome.ok u
      ∧ u.role = "admin" ∧ u.emailVerified = true ∧ u.createdAt = u.lastLogin
      ∧ u.displayName = "Bea"
      ∧ (signUp ⟨Outcome.ok ⟨"u9", some "b@x.com", none, none⟩, 11⟩ (fun _ => none)
          ⟨some ⟨"old", none, none, none⟩⟩ "Bea" "admin").2.2 = ⟨none⟩
      ∧ (∀ (readErr : Option JSError) (now : Nat),
          getCurrentUser
            (signUp ⟨Outcome.ok ⟨"u9", some "b@x.com", none, none⟩, 11⟩ (fun _ => none)
              ⟨some ⟨"old", none, none, none⟩⟩ "Bea" "admin").2.1 readErr now
            (signUp ⟨Outcome.ok ⟨"u9", some "b@x.com", none, none⟩, 11⟩ (fun _ => none)
              ⟨some ⟨"old", none, none, none⟩⟩ "Bea" "admin").2.2 = none) :=
  signUp_leaves_no_session _ _ _ "Bea" "admin" ⟨"u9", some "b@x.com", none, none⟩ rfl

/-- C7 counterexample: the claim says that when the provider
authenticates but the store yields no usable profile, signIn fails
rather than returning a profile.  On the code, a successful store read
that finds no document still yields a profile: convertFirebaseUser
only returns null when the read throws, and otherwise fabricates a
default record ("student" role, fresh createdAt) from the bare
assertion.  Here the store is empty yet signIn returns a profile. -/
theorem signIn_missing_doc_returns_profile :
    (signIn ⟨Outcome.ok ⟨"u1", some "a@x.com", some "Ann", none⟩, none, 7⟩
        (fun _ => none)).1
      = Outcome.ok ⟨"u1", "a@x.com", "Ann", "student", none, 7, 7, true⟩ := rfl

/-- C7 amended: when the store read throws, signIn fails with the
generic error "Failed to get user data" and writes nothing; when the
read succeeds but finds no document, signIn does not fail — it returns
a profile fabricated from the assertion with default role "student"
and fresh timestamps, and merge-creates a document holding only
lastLogin. -/
theorem signIn_profile_resolution (env : SignInEnv) (store : Store)
    (fb : FirebaseUser) (h1 : env.authResult = Outcome.ok fb) :
    (∀ e, env.readErr = some e →
        signIn env store = (Outcome.thrown (mkError "Failed to get user data"), store))
    ∧ (env.readErr = none → store fb.uid = none →
        ∃ u : UserProfile,
          (signIn env store).1 = Outcome.ok u
          ∧ u.uid = fb.uid ∧ u.role = "student"
          ∧ u.createdAt = env.now ∧ u.lastLogin = env.now
          ∧ (signIn env store).2 fb.uid
              = some { emptyDoc with lastLogin := some env.now }) := by
  obtain ⟨ar, re, n⟩ := env
  cases h1
  constructor
  · intro e he
    cases he
    rfl
  · intro hre hdoc
    cases hre
    have hconv : convertFirebaseUser store none n fb
        = some
          { uid := fb.uid
            email := strOrD fb.email ""
            displayName := strOrD (strOr fb.displayName ((store fb.uid).bind (·.displayName))) ""
            role := strOrD ((store fb.uid).bind (·.role)) "student"
            photoURL := strOr fb.photoURL none
            createdAt := natOr ((store fb.uid).bind (·.createdAt)) n
            lastLogin := n
            emailVerified := true } := rfl
    rw [hdoc] at hconv
    have hsign : signIn ⟨Outcome.ok fb, none, n⟩ store
        = (Outcome.ok
            { uid := fb.uid
              email := strOrD fb.email ""
              displayName := strOrD (strOr fb.displayName none) ""
              role := "student"
              photoURL := strOr fb.photoURL none
              createdAt := n
              lastLogin := n
              emailVerified := true },
           mergeLastLogin store fb.uid n) := by
      show (match convertFirebaseUser store none n fb with
            | none => (Outcome.thrown (mkError "Failed to get user data"), store)
            | some user => (Outcome.ok user, mergeLastLogin store user.uid n)) = _
      rw [hconv]
      rfl
    rw [hsign]
    exact ⟨_, rfl, rfl, rfl, rfl, rfl, by simp [mergeLastLogin, hdoc]⟩

/-- Witness for the C7 amended theorem: subject "u1" authenticated,
probed against the empty store at time 7. -/
theorem signIn_profile_resolution_witness :
    (∀ e, (none : Option JSError) = some e →
        signIn ⟨Outcome.ok ⟨"u1", some "a@x.com", some "Ann", none⟩, none, 7⟩ (fun _ => none)
          = (Outcome.thrown (mkError "Failed to get user data"), fun _ => none))
    ∧ ((none : Option JSError) = none →
        (fun _ => none : Store) "u1" = none →
        ∃ u : UserProfile,
          (signIn ⟨Outcome.ok ⟨"u1", some "a@x.com", some "Ann", none⟩, none, 7⟩
              (fun _ => none)).1 = Outcome.ok u
          ∧ u.uid = "u1" ∧ u.role = "student"
          ∧ u.createdAt = 7 ∧ u.lastLogin = 7
          ∧ (signIn ⟨Outcome.ok ⟨"u1", some "a@x.com", some "Ann", none⟩, none, 7⟩
              (fun _ => none)).2 "u1"
              = some { emptyDoc with lastLogin := some 7 }) :=
  signIn_profile_resolution
    ⟨Outcome.ok ⟨"u1", some "a@x.com", some "Ann", none⟩, none, 7⟩ (fun _ => none)
    ⟨"u1", some "a@x.com", some "Ann", none⟩ rfl

/-- C8 counterexample: the claim says a store-read failure is never
converted into a delivered absent session state while the provider
session is still authenticated.  Here the provider reports an
authenticated user with an existing stored document, the store read
throws, and the subscription delivers absent (null) to its listener:
convertFirebaseUser swallows the failure. -/
theorem subscription_swallows_store_failure :
    authStateCallbackValue
      (setFullDoc (fun _ => none) "u1"
        (toDoc ⟨"u1", "a@x.com", "Ann", "student", none, 3, 3, true⟩))
      (some (mkError "permission-denied")) 4
      (some ⟨"u1", some "a@x.com", some "Ann", none⟩) = none := rfl

/-- C8 amended: store-read failures during the Google sign-in and
pending-redirect reconciliation are signaled to the caller (classified
by handleGoogleSignInError, since a Firestore error carries no auth/
code it surfaces as a generic error), and no write happens; but the
session-read path (convertFirebaseUser, used by the subscription and
getCurrentUser) swallows a store-read failure and delivers absent even
while the provider session is authenticated. -/
theorem store_failure_propagation (store : Store) (fb : FirebaseUser)
    (e : JSError) (now : Nat) :
    (signInWithGoogle ⟨Outcome.ok fb, none, some e, now⟩ store false).1
      = Outcome.thrown (handleGoogleSignInError e)
    ∧ (signInWithGoogle ⟨Outcome.ok fb, none, some e, now⟩ store false).2 = store
    ∧ (checkRedirectResult ⟨Outcome.ok (some fb), some e, now⟩ store).1
      = Outcome.thrown (handleGoogleSignInError e)
    ∧ (checkRedirectResult ⟨Outcome.ok (some fb), some e, now⟩ store).2 = store
    ∧ authStateCallbackValue store (some e) now (some fb) = none
    ∧ getCurrentUser store (some e) now ⟨some fb⟩ = none :=
  ⟨rfl, rfl, rfl, rfl, rfl, rfl⟩

/-- C9 counterexample: the claim says every successful sign-in or
session read keeps the stored photoURL when the assertion carries
none.  On the session-read path the resulting profile takes photoURL
from the provider only: here the stored document has photoURL "pic",
the assertion has none, and the profile delivered by
convertFirebaseUser has photoURL none. -/
theorem session_read_drops_stored_photo :
    (convertFirebaseUser
        (setFullDoc (fun _ => none) "u1"
          { emptyDoc with role := some "student", photoURL := some "pic" })
        none 3 ⟨"u1", some "a@x.com", some "Ann", none⟩).map (fun u => u.photoURL)
      = some none
    ∧ (setFullDoc (fun _ => none) "u1"
        { emptyDoc with role := some "student", photoURL := some "pic" } "u1").bind
        (fun d => d.photoURL) = some "pic" := ⟨rfl, rfl⟩

/-- C9 amended: on the Google reconciliation paths a profile whose
assertion carries no photoURL keeps the stored value, both in the
returned profile and in the merged document; but on the session-read
path (convertFirebaseUser: signIn, getCurrentUser and the
subscription) photoURL comes from the provider only, so it is none
whenever the assertion carries none, whatever the store holds. -/
theorem photo_retention_paths (store : Store) (fb : FirebaseUser)
    (ex : StoredDoc) (now : Nat)
    (h : store fb.uid = some ex) (hfb : fb.photoURL = none)
    (hex : ∀ s, ex.photoURL = some s → s ≠ "") :
    ∃ u : UserProfile,
      (reconcileGoogleUser store none now fb).1 = Outcome.ok u
      ∧ u.photoURL = ex.photoURL
      ∧ (∃ d, (reconcileGoogleUser store none now fb).2 fb.uid = some d
          ∧ d.photoURL = ex.photoURL)
      ∧ (∀ v, convertFirebaseUser store none now fb = some v → v.photoURL = none) := by
  rw [reconcileGoogleUser_existing store fb ex now h]
  refine ⟨mergedGoogleProfile fb ex now, rfl, ?_,
    ⟨applyLoginMerge ex fb now, setFullDoc_same _ _ _, ?_⟩, ?_⟩
  · show strOr fb.photoURL (strOr ex.photoURL none) = ex.photoURL
    rw [hfb]
    show strOr ex.photoURL none = ex.photoURL
    cases hpe : ex.photoURL with
    | none => rfl
    | some s =>
      have hs := hex s hpe
      simp [strOr, hs]
  · show strOr fb.photoURL ex.photoURL = ex.photoURL
    rw [hfb]
    rfl
  · intro v hv
    have hconv : convertFirebaseUser store none now fb
        = some
          { uid := fb.uid
            email := strOrD fb.email ""
            displayName := strOrD (strOr fb.displayName ((store fb.uid).bind (·.displayName))) ""
            role := strOrD ((store fb.uid).bind (·.role)) "student"
            photoURL := strOr fb.photoURL none
            createdAt := natOr ((store fb.uid).bind (·.createdAt)) now
            lastLogin := now
            emailVerified := true } := rfl
    rw [hconv] at hv
    injection hv with hv2
    rw [← hv2]
    show strOr fb.photoURL none = none
    rw [hfb]
    rfl

/-- Witness for the C9 amended theorem: subject "u1" with stored photo
"pic" and an assertion without one, reconciled at time 4. -/
theorem photo_retention_paths_witness :
    ∃ u : UserProfile,
      (reconcileGoogleUser
          (setFullDoc (fun _ => none) "u1"
            { emptyDoc with role := some "student", photoURL := some "pic" })
          none 4 ⟨"u1", some "a@x.com", some "Ann", none⟩).1 = Outcome.ok u
      ∧ u.photoURL = some "pic"
      ∧ (∃ d, (reconcileGoogleUser
            (setFullDoc (fun _ => none) "u1"
              { emptyDoc with role := some "student", photoURL := some "pic" })
            none 4 ⟨"u1", some "a@x.com", some "Ann", none⟩).2 "u1" = some d
          ∧ d.photoURL = some "pic")
      ∧ (∀ v, convertFirebaseUser
            (setFullDoc (fun _ => none) "u1"
              { emptyDoc with role := some "student", photoURL := some "pic" })
            none 4 ⟨"u1", some "a@x.com", some "Ann", none⟩ = some v →
          v.photoURL = none) :=
  photo_retention_paths _ ⟨"u1", some "a@x.com", some "Ann", none⟩
    { emptyDoc with role := some "student", photoURL := some "pic" } 4
    (setFullDoc_same _ _ _) rfl
    (by intro s hs; injection hs with h2; rw [← h2]; decide)

/-- C10: after a successful context signUp the context holds the
created profile as the current user with loading false, even though
the provider session was terminated inside the service signUp; the
user only reverts to absent when a subscription event later delivers
no session. -/
theorem ctxSignUp_adopts_profile (env : SignUpEnv) (store : Store)
    (pstate : ProviderState) (dn rl : String) (st : CtxState)
    (fb : FirebaseUser) (h : env.createResult = Outcome.ok fb) :
    ∃ u : UserProfile,
      (ctxSignUp env store pstate dn rl st).1 = none
      ∧ (ctxSignUp env store pstate dn rl st).2.1 = ⟨some u, false⟩
      ∧ (ctxSignUp env store pstate dn rl st).2.2.2.currentUser = none
      ∧ (∀ p, ctxAuthCallback (some p) = ⟨some p, false⟩)
      ∧ ctxAuthCallback none = ⟨none, false⟩ := by
  obtain ⟨cr, n⟩ := env
  cases h
  exact ⟨_, rfl, rfl, rfl, fun _ => rfl, rfl⟩

/-- Witness for the C10 theorem: a concrete context signUp at time 11
from a busy initial state. -/
theorem ctxSignUp_adopts_profile_witness :
    ∃ u : UserProfile,
      (ctxSignUp ⟨Outcome.ok ⟨"u9", some "b@x.com", none, none⟩, 11⟩ (fun _ => none)
          ⟨none⟩ "Bea" "student" ⟨none, true⟩).1 = none
      ∧ (ctxSignUp ⟨Outcome.ok ⟨"u9", some "b@x.com", none, none⟩, 11⟩ (fun _ => none)
          ⟨none⟩ "Bea" "student" ⟨none, true⟩).2.1 = ⟨some u, false⟩
      ∧ (ctxSignUp ⟨Outcome.ok ⟨"u9", some "b@x.com", none, none⟩, 11⟩ (fun _ => none)
          ⟨none⟩ "Bea" "student" ⟨none, true⟩).2.2.2.currentUser = none
      ∧ (∀ p, ctxAuthCallback (some p) = ⟨some p, false⟩)
      ∧ ctxAuthCallback none = ⟨none, false⟩ :=
  ctxSignUp_adopts_profile _ _ _ "Bea" "student" ⟨none, true⟩
    ⟨"u9", some "b@x.com", none, none⟩ rfl

end LatestML
